import Mathlib

/-!
Shallow embedding of the core client-side logic of the flow-framework
dashboard front-end: preset workflow filtering and version gating
(new_workflow), effective-version resolution, ML-processor configuration
view conditions (map-length callout, preview availability, field-option
sanitization), the test-query action, the console renderer, the
workspace console-error aggregation effect, and the invalid-workflow
latch.  Pure functions are translated directly; asynchronous lookups and
library calls that live outside this repository are passed in as
explicit parameters (the result of the call), so every definition is
executable.
-/

/-- Workflow use-case types, as used by the preset filter
(common/constants is outside the embedded sources; the constructors
listed are the ones exercised by the embedded code and its tests). -/
inductive WORKFLOW_TYPE where
  | SEMANTIC_SEARCH
  | MULTIMODAL_SEARCH
  | HYBRID_SEARCH
  | CUSTOM
  | UNKNOWN
deriving DecidableEq, Repr

/-- The slice of a workflow's ui_metadata read by the preset filter:
an optional use-case type. -/
structure UIMetadata where
  type : Option WORKFLOW_TYPE
deriving DecidableEq, Repr

/-- The slice of a workflow template read by the embedded code: its
name (searched by fetchFilteredWorkflows), its optional ui_metadata
(read by filterPresetsByVersion) and its optional error string (read by
the workspace console-error effect). -/
structure Workflow where
  name : String
  ui_metadata : Option UIMetadata
  error : Option String
deriving DecidableEq, Repr

/-- Modelled from the spec: MIN_SUPPORTED_VERSION from common/constants
is not among the embedded sources; the code's preset list for the lower
bound is named allowedPresetsFor217, so the minimum supported version is
2.17.0. -/
def MIN_SUPPORTED_VERSION : String := "2.17.0"

/-- Modelled from the spec: MINIMUM_FULL_SUPPORTED_VERSION from
common/constants is not among the embedded sources; the code's comment
says that with multi-data-source support disabled it assumes version
2.19+, so the full-support threshold is 2.19.0. -/
def MINIMUM_FULL_SUPPORTED_VERSION : String := "2.19.0"

/-- Splits a character list on the dot character. -/
def splitDotAux : List Char → List Char → List (List Char)
  | [], acc => [acc.reverse]
  | c :: rest, acc =>
    if c = '.' then acc.reverse :: splitDotAux rest []
    else splitDotAux rest (c :: acc)

/-- Digits-only parse of a character list to a number, zero otherwise. -/
def charsToNat (cs : List Char) : Nat :=
  if !cs.isEmpty && cs.all (fun c => c.isDigit) then
    cs.foldl (fun n c => n * 10 + (c.toNat - 48)) 0
  else 0

/-- Numeric components of a dotted version string, as compared by the
semver library for plain x.y.z versions. -/
def parseSemVer (s : String) : List Nat :=
  (splitDotAux s.data []).map charsToNat

/-- Lexicographic strict order on version component lists. -/
def listLtNat : List Nat → List Nat → Bool
  | _, [] => false
  | [], _ :: _ => true
  | a :: as, b :: bs =>
    if a < b then true else if b < a then false else listLtNat as bs

/-- semver.lt restricted to plain dotted-numeric versions. -/
def semverLt (a b : String) : Bool :=
  listLtNat (parseSemVer a) (parseSemVer b)

/-- semver.gte restricted to plain dotted-numeric versions. -/
def semverGte (a b : String) : Bool :=
  !semverLt a b

/-- The preset types kept for versions between the minimum supported
and the full-support threshold (allowedPresetsFor217 in new_workflow). -/
def allowedPresetsFor217 : List WORKFLOW_TYPE :=
  [WORKFLOW_TYPE.SEMANTIC_SEARCH, WORKFLOW_TYPE.MULTIMODAL_SEARCH,
    WORKFLOW_TYPE.HYBRID_SEARCH]

/-- The type the preset filter assigns to a workflow:
workflow.ui_metadata?.type ?? WORKFLOW_TYPE.UNKNOWN. -/
def workflowTypeOf (workflow : Workflow) : WORKFLOW_TYPE :=
  (workflow.ui_metadata.bind (fun m => m.type)).getD WORKFLOW_TYPE.UNKNOWN

/-- filterPresetsByVersion from new_workflow.  The enabled flag is the
result of getDataSourceEnabled().enabled, and version is the value the
code awaits from getEffectiveVersion(dataSourceId). -/
def filterPresetsByVersion (dataSourceEnabled : Bool)
    (workflows : List Workflow) (dataSourceId : Option String)
    (version : String) : List Workflow :=
  if !dataSourceEnabled then workflows
  else
    match dataSourceId with
    | none => []
    | some _ =>
      if semverLt version MIN_SUPPORTED_VERSION then []
      else if semverGte version MIN_SUPPORTED_VERSION &&
          semverLt version MINIMUM_FULL_SUPPORTED_VERSION then
        workflows.filter
          (fun workflow => allowedPresetsFor217.contains (workflowTypeOf workflow))
      else workflows

/-- The attributes of a saved data-source object, as read by
getEffectiveVersion: an optional dataSourceVersion string. -/
structure DataSourceAttributes where
  dataSourceVersion : Option String
deriving DecidableEq, Repr

/-- A saved data-source object with optional attributes. -/
structure SavedDataSource where
  attributes : Option DataSourceAttributes
deriving DecidableEq, Repr

/-- getEffectiveVersion from new_workflow.  The two asynchronous
lookups are passed as parameters: proxyVersion is the version.number of
the console-proxy response (none when the call fails or the field is
missing), savedDataSource is the saved-object lookup result (none when
it fails).  The try/catch is rendered as the none branches; the JS
expression dataSource?.attributes?.dataSourceVersion ||
MIN_SUPPORTED_VERSION falls back both when the attribute is absent and
when it is the empty string (falsy). -/
def getEffectiveVersion (dataSourceId : Option String)
    (proxyVersion : Option String)
    (savedDataSource : Option SavedDataSource) : String :=
  match dataSourceId with
  | none => MIN_SUPPORTED_VERSION
  | some id =>
    if id = "" then
      match proxyVersion with
      | some v => v
      | none => MIN_SUPPORTED_VERSION
    else
      match savedDataSource with
      | none => MIN_SUPPORTED_VERSION
      | some ds =>
        match ds.attributes with
        | none => MIN_SUPPORTED_VERSION
        | some attrs =>
          match attrs.dataSourceVersion with
          | none => MIN_SUPPORTED_VERSION
          | some v => if v = "" then MIN_SUPPORTED_VERSION else v

/-- JS String.prototype.includes on character lists: true when the
second list occurs contiguously inside the first. -/
def containsSub (sub : List Char) : List Char → Bool
  | [] => sub.isEmpty
  | c :: rest => sub.isPrefixOf (c :: rest) || containsSub sub rest

/-- JS String.prototype.includes on strings. -/
def strIncludes (s sub : String) : Bool :=
  containsSub sub.data s.data

/-- JS String.prototype.toLowerCase, character by character. -/
def strToLower (s : String) : String :=
  ⟨s.data.map Char.toLower⟩

/-- fetchFilteredWorkflows from new_workflow: the identity on an empty
search query, otherwise the case-insensitive name filter. -/
def fetchFilteredWorkflows (allWorkflows : List Workflow)
    (searchQuery : String) : List Workflow :=
  if searchQuery.length == 0 then allWorkflows
  else
    allWorkflows.filter
      (fun workflow =>
        strIncludes (strToLower workflow.name) (strToLower searchQuery))

/-- One key/value entry of an input or output map form value. -/
structure MapEntry where
  key : String
  value : String
deriving DecidableEq, Repr

/-- The condition of the danger callout in MLProcessorInputs:
inputMapValue.length and outputMapValue.length differ and both are
positive.  The map values are MapArrayFormValue lists whose elements
are MapFormValue entry lists. -/
def mlMapLengthCalloutVisible (inputMapValue outputMapValue : List (List MapEntry)) : Bool :=
  decide (inputMapValue.length ≠ outputMapValue.length) &&
    decide (inputMapValue.length > 0) &&
    decide (outputMapValue.length > 0)

/-- The three processor contexts a processor configuration view can be
rendered in. -/
inductive PROCESSOR_CONTEXT where
  | INGEST
  | SEARCH_REQUEST
  | SEARCH_RESPONSE
deriving DecidableEq, Repr

/-- The isInputPreviewAvailable state of MLProcessorInputs.  In the
search-request context the effect stores whether formikToPartialPipeline
(run over the current form values and configuration, excluding the
processor itself) returned undefined; that call lives outside the
embedded sources, so its result is the curSearchPipeline parameter.  In
the other contexts the state keeps its initial value true. -/
def isInputPreviewAvailable {α : Type} (context : PROCESSOR_CONTEXT)
    (curSearchPipeline : Option α) : Bool :=
  match context with
  | PROCESSOR_CONTEXT.SEARCH_REQUEST => curSearchPipeline.isNone
  | _ => true

/-- The isOutputPreviewAvailable value of MLProcessorInputs:
props.context !== PROCESSOR_CONTEXT.SEARCH_REQUEST.  The preview
buttons render with disabled set to the negation of the corresponding
availability flag. -/
def isOutputPreviewAvailable (context : PROCESSOR_CONTEXT) : Bool :=
  context != PROCESSOR_CONTEXT.SEARCH_REQUEST

/-- The field-option update effect of MLProcessorInputs, shared shape of
the docFields and queryFields hooks.  parsedKeys is the flattened key
list of the parsed JSON (first sample document, or search request); it
is none when JSON.parse throws, in which case the catch block leaves the
previous options unchanged.  The length guard also leaves them unchanged
when no keys were found.  sanitizeJSONPath lives outside the embedded
sources and is passed as a parameter. -/
def fieldOptionsUpdate (context : PROCESSOR_CONTEXT)
    (sanitizeJSONPath : String → String)
    (parsedKeys : Option (List String))
    (prevOptions : List String) : List String :=
  match parsedKeys with
  | none => prevOptions
  | some keys =>
    if keys.length > 0 then
      keys.map
        (fun key =>
          if context = PROCESSOR_CONTEXT.INGEST then key
          else sanitizeJSONPath key)
    else prevOptions

/-- A search hit, reduced to the field the test-query handler reads. -/
structure SearchHit where
  _source : String
deriving DecidableEq, Repr

/-- The hits wrapper of a search response. -/
structure SearchResponseHits where
  hits : List SearchHit
deriving DecidableEq, Repr

/-- A search response, reduced to the fields the test-query handler
reads. -/
structure SearchResponse where
  hits : SearchResponseHits
deriving DecidableEq, Repr

/-- The apiBody the test-query handler dispatches to searchIndex. -/
structure SearchApiBody where
  index : String
  body : String
  searchPipeline : String
deriving DecidableEq, Repr

/-- The test-query action of ConfigureSearchRequest: the dispatched
request body, and the query-response string set afterwards (the
stringified _source array on success, the empty string on failure).
customStringify lives outside the embedded sources and is passed as the
stringify parameter; result is none when the dispatched call rejects. -/
def testQueryRun (stringify : List String → String)
    (indexName request : String) (result : Option SearchResponse) :
    SearchApiBody × String :=
  (⟨indexName, request, "_none"⟩,
    match result with
    | some resp => stringify (resp.hits.hits.map (fun hit => hit._source))
    | none => "")

/-- Which top-level pieces the Console component renders. -/
structure ConsoleRender where
  emptyPrompt : Bool
  errorsSection : Bool
  responsesSection : Bool
deriving DecidableEq, Repr

/-- The Console component's render structure: the empty prompt when
there is no content at all, otherwise the Errors section exactly when
there are error messages and the Responses section exactly when the
ingest response is non-empty. -/
def consoleRender (errorMessages : List String) (ingestResponse : String) : ConsoleRender :=
  let hasErrors := decide (errorMessages.length > 0)
  let hasIngestResponse := ingestResponse != ""
  let hasAnyContent := hasErrors || hasIngestResponse
  if !hasAnyContent then ⟨true, false, false⟩
  else ⟨false, hasErrors, hasIngestResponse⟩

/-- JS truthiness of an optional string: defined and non-empty. -/
def truthyStr : Option String → Bool
  | some s => s != ""
  | none => false

/-- The header line pushed before formatted ingest processor errors. -/
def ingestErrorsHeader : String :=
  "Data not ingested. Errors found with the following ingest processor(s):"

/-- The header line pushed before formatted search processor errors. -/
def searchErrorsHeader : String :=
  "Errors found with the following search processor(s):"

/-- The console-error aggregation effect of ResizableWorkspace.  The
five sources are the two store error strings, props.workflow?.error,
and the Object.values of the two pipeline-error maps.
formatProcessorError lives outside the embedded sources and is passed
as a parameter.  Returns the new consoleErrorMessages list and the new
isConsolePanelOpen state. -/
def consoleErrorsEffect (formatProcessorError : String → String)
    (opensearchError workflowsError : String) (workflowError : Option String)
    (ingestPipelineErrors searchPipelineErrors : List String)
    (isConsolePanelOpen : Bool) : List String × Bool :=
  if (opensearchError != "") || !ingestPipelineErrors.isEmpty ||
      !searchPipelineErrors.isEmpty || (workflowsError != "") ||
      truthyStr workflowError then
    let m1 := if opensearchError != "" then [opensearchError] else []
    let m2 := if workflowsError != "" then [workflowsError] else []
    let m3 := match workflowError with
      | some e => if e != "" then [e] else []
      | none => []
    let m4 := if !ingestPipelineErrors.isEmpty then
        ingestErrorsHeader :: ingestPipelineErrors.map formatProcessorError
      else []
    let m5 := if !searchPipelineErrors.isEmpty then
        searchErrorsHeader :: searchPipelineErrors.map formatProcessorError
      else []
    (m1 ++ m2 ++ m3 ++ m4 ++ m5, true)
  else
    ([], isConsolePanelOpen)

/-- One run of the isValidWorkflow effect of ResizableWorkspace (all
three variants share it verbatim): when the workflow prop is defined
and fails isValidUiWorkflow the state is set to false, otherwise it is
left unchanged.  isValidUiWorkflow lives outside the embedded sources
and is passed as a parameter. -/
def validWorkflowStep (isValidUiWorkflow : Workflow → Bool)
    (isValidWorkflow : Bool) (workflow : Option Workflow) : Bool :=
  let missingUiFlow := match workflow with
    | some w => !isValidUiWorkflow w
    | none => false
  if missingUiFlow then false else isValidWorkflow

theorem listLtNat_trans : ∀ (a b c : List Nat),
    listLtNat a b = true → listLtNat b c = true → listLtNat a c = true := by
  intro a
  induction a with
  | nil =>
    intro b c hab hbc
    cases b with
    | nil => simp [listLtNat] at hab
    | cons b0 bs =>
      cases c with
      | nil => simp [listLtNat] at hbc
      | cons c0 cs => simp [listLtNat]
  | cons a0 as ih =>
    intro b c hab hbc
    cases b with
    | nil => simp [listLtNat] at hab
    | cons b0 bs =>
      cases c with
      | nil => simp [listLtNat] at hbc
      | cons c0 cs =>
        simp only [listLtNat] at hab hbc ⊢
        by_cases h1 : a0 < b0
        · by_cases h2 : b0 < c0
          · have hac : a0 < c0 := Nat.lt_trans h1 h2
            simp [hac]
          · by_cases h3 : c0 < b0
            · simp [h2, h3] at hbc
            · have hbceq : b0 = c0 := by omega
              have hac : a0 < c0 := by omega
              simp [hac]
        · by_cases h1b : b0 < a0
          · simp [h1, h1b] at hab
          · have hab2 : listLtNat as bs = true := by simpa [h1, h1b] using hab
            have habeq : a0 = b0 := by omega
            by_cases h2 : b0 < c0
            · have hac : a0 < c0 := by omega
              simp [hac]
            · by_cases h3 : c0 < b0
              · simp [h2, h3] at hbc
              · have hbc2 : listLtNat bs cs = true := by simpa [h2, h3] using hbc
                have hac1 : ¬a0 < c0 := by omega
                have hac2 : ¬c0 < a0 := by omega
                simp [hac1, hac2]
                exact ih bs cs hab2 hbc2

/-- Claim C1: filterPresetsByVersion returns the list unchanged when
multi-data-source support is disabled; the empty list when the data
source id is undefined, or when the effective version is below
MIN_SUPPORTED_VERSION; exactly the presets whose ui_metadata type is
SEMANTIC_SEARCH, MULTIMODAL_SEARCH or HYBRID_SEARCH (a preset with no
type counting as UNKNOWN and dropped) when the version is at least
MIN_SUPPORTED_VERSION but below MINIMUM_FULL_SUPPORTED_VERSION; and the
full list unchanged at or above MINIMUM_FULL_SUPPORTED_VERSION. -/
theorem filterPresetsByVersion_spec (workflows : List Workflow)
    (dataSourceId : Option String) (version : String) :
    (filterPresetsByVersion false workflows dataSourceId version = workflows) ∧
    (filterPresetsByVersion true workflows none version = []) ∧
    (∀ id, semverLt version MIN_SUPPORTED_VERSION = true →
      filterPresetsByVersion true workflows (some id) version = []) ∧
    (∀ id, semverGte version MIN_SUPPORTED_VERSION = true →
      semverLt version MINIMUM_FULL_SUPPORTED_VERSION = true →
      filterPresetsByVersion true workflows (some id) version =
        workflows.filter
          (fun workflow => allowedPresetsFor217.contains (workflowTypeOf workflow))) ∧
    (∀ id, semverGte version MINIMUM_FULL_SUPPORTED_VERSION = true →
      filterPresetsByVersion true workflows (some id) version = workflows) := by
  refine ⟨by simp [filterPresetsByVersion], by simp [filterPresetsByVersion], ?_, ?_, ?_⟩
  · intro id h
    simp [filterPresetsByVersion, h]
  · intro id hges hlt
    have hlts : semverLt version MIN_SUPPORTED_VERSION = false := by
      have := hges
      simp [semverGte] at this
      simpa using this
    simp [filterPresetsByVersion, hlts, hges, hlt]
  · intro id hgef
    have hltf : semverLt version MINIMUM_FULL_SUPPORTED_VERSION = false := by
      have := hgef
      simp [semverGte] at this
      simpa using this
    have hmf : listLtNat (parseSemVer MIN_SUPPORTED_VERSION)
        (parseSemVer MINIMUM_FULL_SUPPORTED_VERSION) = true := by decide
    have hltm : semverLt version MIN_SUPPORTED_VERSION = false := by
      by_contra hc
      have hc2 : semverLt version MIN_SUPPORTED_VERSION = true := by
        simpa using hc
      have : semverLt version MINIMUM_FULL_SUPPORTED_VERSION = true :=
        listLtNat_trans _ _ _ hc2 hmf
      rw [this] at hltf
      simp at hltf
    simp [filterPresetsByVersion, hltm, hltf]

/-- Witness for C1: with multi-data-source enabled, a defined data
source id, and effective version 2.18.0 (between the two thresholds),
only the semantic-search preset survives; a custom preset and a preset
with no ui_metadata are dropped. -/
theorem filterPresetsByVersion_witness :
    semverGte "2.18.0" MIN_SUPPORTED_VERSION = true ∧
    semverLt "2.18.0" MINIMUM_FULL_SUPPORTED_VERSION = true ∧
    filterPresetsByVersion true
      [⟨"sem", some ⟨some WORKFLOW_TYPE.SEMANTIC_SEARCH⟩, none⟩,
        ⟨"cus", some ⟨some WORKFLOW_TYPE.CUSTOM⟩, none⟩,
        ⟨"not", none, none⟩]
      (some "ds") "2.18.0" =
      [⟨"sem", some ⟨some WORKFLOW_TYPE.SEMANTIC_SEARCH⟩, none⟩] := by
  refine ⟨by decide, by decide, ?_⟩
  rw [(filterPresetsByVersion_spec
      [⟨"sem", some ⟨some WORKFLOW_TYPE.SEMANTIC_SEARCH⟩, none⟩,
        ⟨"cus", some ⟨some WORKFLOW_TYPE.CUSTOM⟩, none⟩,
        ⟨"not", none, none⟩]
      (some "ds") "2.18.0").2.2.2.1 "ds" (by decide) (by decide)]
  decide

theorem containsSub_nil : ∀ s : List Char, containsSub [] s = true := by
  intro s
  induction s with
  | nil => rfl
  | cons c rest ih => simp [containsSub, List.isPrefixOf]

theorem strIncludes_empty (s : String) : strIncludes s "" = true := by
  simpa [strIncludes] using containsSub_nil s.data

/-- Claim C10: fetchFilteredWorkflows returns the order-preserving
sublist of workflows whose lowercased name contains the lowercased
query, and is the identity on the empty query. -/
theorem fetchFilteredWorkflows_spec (allWorkflows : List Workflow)
    (searchQuery : String) :
    fetchFilteredWorkflows allWorkflows searchQuery =
      allWorkflows.filter
        (fun workflow =>
          strIncludes (strToLower workflow.name) (strToLower searchQuery)) ∧
    List.Sublist (fetchFilteredWorkflows allWorkflows searchQuery) allWorkflows ∧
    fetchFilteredWorkflows allWorkflows "" = allWorkflows := by
  have hfilter : fetchFilteredWorkflows allWorkflows searchQuery =
      allWorkflows.filter
        (fun workflow =>
          strIncludes (strToLower workflow.name) (strToLower searchQuery)) := by
    unfold fetchFilteredWorkflows
    split
    · rename_i hlen
      have hq : searchQuery = "" := by
        cases searchQuery with
        | mk data =>
          cases data with
          | nil => rfl
          | cons c rest => simp [String.length] at hlen
      subst hq
      have hall : ∀ w ∈ allWorkflows,
          strIncludes (strToLower w.name) (strToLower "") = true := by
        intro w _
        have htl : strToLower "" = "" := rfl
        rw [htl]
        exact strIncludes_empty (strToLower w.name)
      exact (List.filter_eq_self.mpr hall).symm
    · rfl
  refine ⟨hfilter, ?_, ?_⟩
  · rw [hfilter]
    exact List.filter_sublist allWorkflows
  · rfl

/-- Claim C3 (amended): getEffectiveVersion is total and resolves to
the cluster-reported version number when the data source id is the
empty string (MIN_SUPPORTED_VERSION when that request fails); to the
saved data source's dataSourceVersion attribute when it is present and
non-empty, and to MIN_SUPPORTED_VERSION when that attribute is absent
or the empty string, for any other defined id; and to
MIN_SUPPORTED_VERSION whenever the id is undefined or any lookup
fails. -/
theorem getEffectiveVersion_spec (proxyVersion : Option String)
    (savedDataSource : Option SavedDataSource) (id v : String) :
    (getEffectiveVersion none proxyVersion savedDataSource =
      MIN_SUPPORTED_VERSION) ∧
    (getEffectiveVersion (some "") (some v) savedDataSource = v) ∧
    (getEffectiveVersion (some "") none savedDataSource =
      MIN_SUPPORTED_VERSION) ∧
    (id ≠ "" → getEffectiveVersion (some id) proxyVersion none =
      MIN_SUPPORTED_VERSION) ∧
    (id ≠ "" → getEffectiveVersion (some id) proxyVersion (some ⟨none⟩) =
      MIN_SUPPORTED_VERSION) ∧
    (id ≠ "" →
      getEffectiveVersion (some id) proxyVersion (some ⟨some ⟨none⟩⟩) =
        MIN_SUPPORTED_VERSION) ∧
    (id ≠ "" →
      getEffectiveVersion (some id) proxyVersion (some ⟨some ⟨some ""⟩⟩) =
        MIN_SUPPORTED_VERSION) ∧
    (id ≠ "" → v ≠ "" →
      getEffectiveVersion (some id) proxyVersion (some ⟨some ⟨some v⟩⟩) = v) := by
  refine ⟨rfl, by simp [getEffectiveVersion], by simp [getEffectiveVersion],
    ?_, ?_, ?_, ?_, ?_⟩
  · intro h
    simp [getEffectiveVersion, h]
  · intro h
    simp [getEffectiveVersion, h]
  · intro h
    simp [getEffectiveVersion, h]
  · intro h
    simp [getEffectiveVersion, h]
  · intro h hv
    simp [getEffectiveVersion, h, hv]

/-- Witness for C3: a non-empty id with a saved data source carrying a
non-empty dataSourceVersion resolves to that version. -/
theorem getEffectiveVersion_witness :
    getEffectiveVersion (some "ds1") none (some ⟨some ⟨some "3.0.0"⟩⟩) =
      "3.0.0" :=
  (getEffectiveVersion_spec none (some ⟨some ⟨some "3.0.0"⟩⟩)
    "ds1" "3.0.0").2.2.2.2.2.2.2 (by decide) (by decide)

/-- Counterexample for C3 as stated: with a defined, non-empty data
source id and a saved data source whose dataSourceVersion attribute is
present but equal to the empty string, the code does not return that
attribute value; the JS logical-or fallback yields
MIN_SUPPORTED_VERSION instead. -/
theorem getEffectiveVersion_empty_attr :
    getEffectiveVersion (some "ds1") none (some ⟨some ⟨some ""⟩⟩) =
      MIN_SUPPORTED_VERSION ∧
    getEffectiveVersion (some "ds1") none (some ⟨some ⟨some ""⟩⟩) ≠ "" := by
  refine ⟨by decide, by decide⟩

/-- Claim C2: the danger callout about input and output map lengths is
rendered exactly when both map values are non-empty and their lengths
differ; when either is empty or the lengths agree it is absent. -/
theorem mlMapLengthCallout_spec (inputMapValue outputMapValue : List (List MapEntry)) :
    mlMapLengthCalloutVisible inputMapValue outputMapValue = true ↔
      (inputMapValue.length ≠ outputMapValue.length ∧
        inputMapValue ≠ [] ∧ outputMapValue ≠ []) := by
  simp [mlMapLengthCalloutVisible, List.length_pos, and_assoc]

/-- Claim C5: in the search-request context the Preview-inputs action
is enabled exactly when the partial search pipeline computed by
formikToPartialPipeline (excluding the processor itself) is undefined,
and the Preview-outputs action is disabled; in every other processor
context the Preview-outputs action is enabled. -/
theorem mlPreviewAvailability_spec {α : Type} (curSearchPipeline : Option α)
    (context : PROCESSOR_CONTEXT) :
    (isInputPreviewAvailable PROCESSOR_CONTEXT.SEARCH_REQUEST curSearchPipeline = true ↔
      curSearchPipeline = none) ∧
    (isOutputPreviewAvailable PROCESSOR_CONTEXT.SEARCH_REQUEST = false) ∧
    (context ≠ PROCESSOR_CONTEXT.SEARCH_REQUEST →
      isOutputPreviewAvailable context = true) := by
  refine ⟨?_, by decide, ?_⟩
  · simp [isInputPreviewAvailable, Option.isNone_iff_eq_none]
  · intro h
    cases context with
    | SEARCH_REQUEST => exact absurd rfl h
    | INGEST => decide
    | SEARCH_RESPONSE => decide

/-- Witness for C5: with no preceding search-request pipeline the
Preview-inputs action is available, and Preview-outputs is available in
the ingest context. -/
theorem mlPreviewAvailability_witness :
    isInputPreviewAvailable PROCESSOR_CONTEXT.SEARCH_REQUEST (none : Option Nat) = true ∧
    isOutputPreviewAvailable PROCESSOR_CONTEXT.INGEST = true :=
  ⟨(mlPreviewAvailability_spec (none : Option Nat) PROCESSOR_CONTEXT.INGEST).1.mpr rfl,
    (mlPreviewAvailability_spec (none : Option Nat) PROCESSOR_CONTEXT.INGEST).2.2
      (by decide)⟩

/-- Claim C6: the field-option effects leave the previous option list
unchanged when the JSON fails to parse; on a successful parse with at
least one flattened key, the ingest context offers the raw keys and
every other context offers each key passed through sanitizeJSONPath. -/
theorem fieldOptionsUpdate_spec (context : PROCESSOR_CONTEXT)
    (sanitizeJSONPath : String → String) (keys prevOptions : List String) :
    (fieldOptionsUpdate context sanitizeJSONPath none prevOptions = prevOptions) ∧
    (keys ≠ [] →
      fieldOptionsUpdate PROCESSOR_CONTEXT.INGEST sanitizeJSONPath (some keys)
        prevOptions = keys) ∧
    (keys ≠ [] → context ≠ PROCESSOR_CONTEXT.INGEST →
      fieldOptionsUpdate context sanitizeJSONPath (some keys) prevOptions =
        keys.map sanitizeJSONPath) := by
  refine ⟨rfl, ?_, ?_⟩
  · intro h
    have hlen : keys.length > 0 := List.length_pos.mpr h
    simp [fieldOptionsUpdate, hlen]
  · intro h hc
    have hlen : keys.length > 0 := List.length_pos.mpr h
    simp [fieldOptionsUpdate, hlen, hc]

/-- Witness for C6: one key is sanitized in the search-request context
and offered raw in the ingest context. -/
theorem fieldOptionsUpdate_witness :
    fieldOptionsUpdate PROCESSOR_CONTEXT.SEARCH_REQUEST (fun s => s ++ "!")
      (some ["a"]) ["p"] = ["a!"] ∧
    fieldOptionsUpdate PROCESSOR_CONTEXT.INGEST (fun s => s ++ "!")
      (some ["a"]) ["p"] = ["a"] := by
  constructor
  · rw [(fieldOptionsUpdate_spec PROCESSOR_CONTEXT.SEARCH_REQUEST
      (fun s => s ++ "!") ["a"] ["p"]).2.2 (by decide) (by decide)]
    decide
  · exact (fieldOptionsUpdate_spec PROCESSOR_CONTEXT.INGEST
      (fun s => s ++ "!") ["a"] ["p"]).2.1 (by decide)

/-- Claim C7: the test-query action dispatches a search request whose
searchPipeline is the literal _none and whose index and body are the
form's search index name and search request; on success the query
response becomes the stringified array of the hits' _source fields, on
failure it becomes the empty string. -/
theorem testQueryRun_spec (stringify : List String → String)
    (indexName request : String) (result : Option SearchResponse) :
    ((testQueryRun stringify indexName request result).1 =
      ⟨indexName, request, "_none"⟩) ∧
    (∀ resp, result = some resp →
      (testQueryRun stringify indexName request result).2 =
        stringify (resp.hits.hits.map (fun hit => hit._source))) ∧
    (result = none →
      (testQueryRun stringify indexName request result).2 = "") := by
  refine ⟨rfl, ?_, ?_⟩
  · intro resp hr
    subst hr
    rfl
  · intro hr
    subst hr
    rfl

/-- Witness for C7: a concrete successful response produces the
stringified source list, with the pipeline disabled via _none. -/
theorem testQueryRun_witness :
    (testQueryRun (String.intercalate ", ") "my-index" "my-query"
      (some ⟨⟨[⟨"a"⟩, ⟨"b"⟩]⟩⟩)).1.searchPipeline = "_none" ∧
    (testQueryRun (String.intercalate ", ") "my-index" "my-query"
      (some ⟨⟨[⟨"a"⟩, ⟨"b"⟩]⟩⟩)).2 = "a, b" := by
  have h := testQueryRun_spec (String.intercalate ", ") "my-index" "my-query"
    (some ⟨⟨[⟨"a"⟩, ⟨"b"⟩]⟩⟩)
  constructor
  · rw [h.1]
  · rw [h.2.1 ⟨⟨[⟨"a"⟩, ⟨"b"⟩]⟩⟩ rfl]
    decide

/-- Claim C8: the Console renders the empty prompt exactly when the
error-message list is empty and the ingest response is the empty
string; otherwise the Errors section appears exactly when there is at
least one error message and the Responses section exactly when the
ingest response is non-empty. -/
theorem consoleRender_spec (errorMessages : List String) (ingestResponse : String) :
    ((consoleRender errorMessages ingestResponse).emptyPrompt = true ↔
      (errorMessages = [] ∧ ingestResponse = "")) ∧
    (¬(errorMessages = [] ∧ ingestResponse = "") →
      ((consoleRender errorMessages ingestResponse).errorsSection = true ↔
        errorMessages ≠ []) ∧
      ((consoleRender errorMessages ingestResponse).responsesSection = true ↔
        ingestResponse ≠ "")) := by
  by_cases h2 : ingestResponse = ""
  · subst h2
    cases errorMessages with
    | nil => simp [consoleRender]
    | cons m ms => simp [consoleRender]
  · cases errorMessages with
    | nil => simp [consoleRender, h2]
    | cons m ms => simp [consoleRender, h2]

/-- Claim C4: the workspace console-error effect, when any of the five
error sources is non-empty, sets the console message list to exactly
the non-empty sources in the fixed order (OpenSearch error, workflows
error, the workflow's own error, the header-prefixed formatted ingest
processor errors, the header-prefixed formatted search processor
errors) and opens the console panel; when all five are empty it sets
the list to empty and leaves the panel state unchanged. -/
theorem consoleErrorsEffect_spec (formatProcessorError : String → String)
    (opensearchError workflowsError : String) (workflowError : Option String)
    (ingestPipelineErrors searchPipelineErrors : List String)
    (isConsolePanelOpen : Bool) :
    ((opensearchError ≠ "" ∨ workflowsError ≠ "" ∨
        truthyStr workflowError = true ∨ ingestPipelineErrors ≠ [] ∨
        searchPipelineErrors ≠ []) →
      consoleErrorsEffect formatProcessorError opensearchError workflowsError
          workflowError ingestPipelineErrors searchPipelineErrors
          isConsolePanelOpen =
        ((if opensearchError = "" then [] else [opensearchError]) ++
          (if workflowsError = "" then [] else [workflowsError]) ++
          (match workflowError with
            | some e => if e = "" then [] else [e]
            | none => []) ++
          (if ingestPipelineErrors = [] then [] else
            ingestErrorsHeader ::
              ingestPipelineErrors.map formatProcessorError) ++
          (if searchPipelineErrors = [] then [] else
            searchErrorsHeader ::
              searchPipelineErrors.map formatProcessorError),
          true)) ∧
    (opensearchError = "" → workflowsError = "" →
      truthyStr workflowError = false → ingestPipelineErrors = [] →
      searchPipelineErrors = [] →
      consoleErrorsEffect formatProcessorError opensearchError workflowsError
          workflowError ingestPipelineErrors searchPipelineErrors
          isConsolePanelOpen = ([], isConsolePanelOpen)) := by
  constructor
  · intro h
    have hcond : ((opensearchError != "") || !ingestPipelineErrors.isEmpty ||
        !searchPipelineErrors.isEmpty || (workflowsError != "") ||
        truthyStr workflowError) = true := by
      rcases h with h | h | h | h | h
      · simp [h]
      · simp [h]
      · simp [h]
      · simp [List.isEmpty_iff, h]
      · simp [List.isEmpty_iff, h]
    have e1 : (if (opensearchError != "") = true then [opensearchError] else []) =
        (if opensearchError = "" then [] else [opensearchError]) := by
      by_cases hx : opensearchError = "" <;> simp [hx]
    have e2 : (if (workflowsError != "") = true then [workflowsError] else []) =
        (if workflowsError = "" then [] else [workflowsError]) := by
      by_cases hx : workflowsError = "" <;> simp [hx]
    have e3 : (match workflowError with
          | some e => if (e != "") = true then [e] else []
          | none => ([] : List String)) =
        (match workflowError with
          | some e => if e = "" then [] else [e]
          | none => []) := by
      cases workflowError with
      | none => rfl
      | some e => by_cases hx : e = "" <;> simp [hx]
    have e4 : (if (!ingestPipelineErrors.isEmpty) = true then
          ingestErrorsHeader :: ingestPipelineErrors.map formatProcessorError
        else []) =
        (if ingestPipelineErrors = [] then [] else
          ingestErrorsHeader :: ingestPipelineErrors.map formatProcessorError) := by
      cases ingestPipelineErrors <;> simp
    have e5 : (if (!searchPipelineErrors.isEmpty) = true then
          searchErrorsHeader :: searchPipelineErrors.map formatProcessorError
        else []) =
        (if searchPipelineErrors = [] then [] else
          searchErrorsHeader :: searchPipelineErrors.map formatProcessorError) := by
      cases searchPipelineErrors <;> simp
    rw [consoleErrorsEffect.eq_def, if_pos hcond, e1, e2, e3, e4, e5]
    cases workflowError <;> simp
  · intro h1 h2 h3 h4 h5
    subst h1; subst h2; subst h4; subst h5
    simp [consoleErrorsEffect, h3]

/-- Witness for C4: an OpenSearch error alone yields exactly that
message and opens the console from the closed state. -/
theorem consoleErrorsEffect_witness :
    consoleErrorsEffect (fun s => s) "connection failed" "" none [] [] false =
      (["connection failed"], true) := by
  have h := (consoleErrorsEffect_spec (fun s => s) "connection failed" ""
    none [] [] false).1 (Or.inl (by decide))
  simpa using h

theorem validWorkflowStep_false (isValidUiWorkflow : Workflow → Bool)
    (workflow : Option Workflow) :
    validWorkflowStep isValidUiWorkflow false workflow = false := by
  cases workflow <;> simp [validWorkflowStep]

/-- Claim C9: once the workflow prop is defined and fails
isValidUiWorkflow, the effect sets isValidWorkflow to false, and no
later run of the effect, for any sequence of subsequent workflow
props, ever sets it back to true. -/
theorem invalidWorkflowLatch_spec (isValidUiWorkflow : Workflow → Bool)
    (w : Workflow) (isValidWorkflow : Bool)
    (h : isValidUiWorkflow w = false) :
    validWorkflowStep isValidUiWorkflow isValidWorkflow (some w) = false ∧
    ∀ workflows : List (Option Workflow),
      List.foldl (validWorkflowStep isValidUiWorkflow)
        (validWorkflowStep isValidUiWorkflow isValidWorkflow (some w))
        workflows = false := by
  have h1 : validWorkflowStep isValidUiWorkflow isValidWorkflow (some w) = false := by
    simp [validWorkflowStep, h]
  refine ⟨h1, ?_⟩
  intro workflows
  rw [h1]
  induction workflows with
  | nil => rfl
  | cons wf rest ih =>
    rw [List.foldl_cons, validWorkflowStep_false]
    exact ih

/-- Witness for C9: an invalid workflow latches the state to false and
it stays false across later runs with an undefined and a valid
workflow prop. -/
theorem invalidWorkflowLatch_witness :
    validWorkflowStep (fun _ => false) true (some ⟨"w", none, none⟩) = false ∧
    List.foldl (validWorkflowStep (fun _ => false))
      (validWorkflowStep (fun _ => false) true (some ⟨"w", none, none⟩))
      [none, some ⟨"ok", none, none⟩] = false := by
  have h := invalidWorkflowLatch_spec (fun _ => false) ⟨"w", none, none⟩ true rfl
  exact ⟨h.1, h.2 [none, some ⟨"ok", none, none⟩]⟩

/-- Witness for C8: with one error message and no ingest response the
Errors section renders; the Responses section and empty prompt do
not. -/
theorem consoleRender_witness :
    (consoleRender ["parse failure"] "").errorsSection = true ∧
    (consoleRender ["parse failure"] "").emptyPrompt = false := by
  have h := consoleRender_spec ["parse failure"] ""
  refine ⟨(h.2 (by simp)).1.mpr (by simp), ?_⟩
  have h1 := h.1
  by_cases hb : (consoleRender ["parse failure"] "").emptyPrompt = true
  · have := h1.mp hb
    simp at this
  · simpa using hb
